import Mathlib

/-!
Verification of the crop-yield pipeline (data ingestion, model selection,
inference front ends) against its natural-language specification.

The definitions below are a shallow embedding of the Python sources:
`src/data_ingestion.py` (raw-table cleaning, seasonal rainfall aggregation,
multi-table merge into the Master Table), `src/training.py` (candidate
enumeration and best-model selection), `app.py` (text front end) and
`streamlit_app.py` (dashboard front end).  Pandas tables are embedded as
lists of structure rows; nullable cells are `Option ℚ`; a left join on a
key-unique right table is embedded as `List.find?` (the sources assume one
rainfall row per (district, year), one soil row per district and one
requirement row per crop, as the spec's data model states).
-/

unseal Rat.add Rat.sub Rat.mul Rat.inv

/-! ### Raw cells and numeric coercion (data_ingestion.py lines 29-34) -/

/-- A raw monthly-rainfall cell as read from the CSV: a number, the literal
string `N.A.` (replaced by NaN at line 29), or some other non-numeric text
(coerced to NaN by `pd.to_numeric(errors='coerce')` at line 34). -/
inductive RawCell where
  | num (q : ℚ)
  | na
  | text (s : String)
deriving DecidableEq

/-- `pd.to_numeric(col, errors='coerce').fillna(0)` applied to one cell
(data_ingestion.py line 34, after the `N.A.` → NaN replacement of line 29):
every non-numeric or missing cell becomes zero. -/
def to_numeric_fill0 : RawCell → ℚ
  | .num q => q
  | .na => 0
  | .text _ => 0

/-! ### String normalization (`str.upper().str.strip()`, lines 23-25, 66, 98-99) -/

/-- Pandas `str.upper()`: uppercase every character. -/
def upper_str (s : String) : String := String.mk (s.data.map Char.toUpper)

/-- Whitespace recognized by `str.strip()`. -/
def isWsChar (c : Char) : Bool := c = ' ' || c = '\t' || c = '\n' || c = '\r'

/-- Pandas `str.strip()`: drop leading and trailing whitespace. -/
def strip_str (s : String) : String :=
  String.mk (((s.data.dropWhile isWsChar).reverse.dropWhile isWsChar).reverse)

/-- The district normalization `str.upper().str.strip()` of
data_ingestion.py lines 23-25. -/
def upper_strip (s : String) : String := strip_str (upper_str s)

/-! ### Rainfall table and seasonal aggregation (data_ingestion.py lines 27-61) -/

/-- One row of `MaharashtrastateRainfall.csv` after column-name cleaning:
a district, a year, twelve monthly cells, and the `Annual_Total` column
(not month-coerced by the line 33-34 loop, so it is either a number or
missing after the `N.A.` replacement). -/
structure RainfallRow where
  district : String
  year : Int
  january : RawCell
  february : RawCell
  march : RawCell
  april : RawCell
  may : RawCell
  june : RawCell
  july : RawCell
  august : RawCell
  september : RawCell
  october : RawCell
  november : RawCell
  december : RawCell
  annual_total : Option ℚ
deriving DecidableEq

/-- A rainfall row after the cleaning of lines 24 and 29-34: the district
normalized, every monthly cell coerced to a number (zero when missing). -/
structure CleanRainRow where
  district : String
  year : Int
  january : ℚ
  february : ℚ
  march : ℚ
  april : ℚ
  may : ℚ
  june : ℚ
  july : ℚ
  august : ℚ
  september : ℚ
  october : ℚ
  november : ℚ
  december : ℚ
  annual_total : Option ℚ
deriving DecidableEq

/-- Cleaning of one rainfall row (district normalization at line 24,
`N.A.` replacement and numeric coercion with zero fill at lines 29-34). -/
def clean_rain_row (r : RainfallRow) : CleanRainRow :=
  { district := upper_strip r.district, year := r.year,
    january := to_numeric_fill0 r.january, february := to_numeric_fill0 r.february,
    march := to_numeric_fill0 r.march, april := to_numeric_fill0 r.april,
    may := to_numeric_fill0 r.may, june := to_numeric_fill0 r.june,
    july := to_numeric_fill0 r.july, august := to_numeric_fill0 r.august,
    september := to_numeric_fill0 r.september, october := to_numeric_fill0 r.october,
    november := to_numeric_fill0 r.november, december := to_numeric_fill0 r.december,
    annual_total := r.annual_total }

/-- A rainfall row with the lookahead columns and the four seasonal
aggregates of data_ingestion.py lines 36-61 attached. -/
structure ExpandedRow where
  row : CleanRainRow
  jan_next : Option ℚ
  feb_next : Option ℚ
  mar_next : Option ℚ
  rain_kharif : ℚ
  rain_rabi : ℚ
  rain_summer : ℚ
  rain_whole_year : Option ℚ
deriving DecidableEq

/-- The year shift of data_ingestion.py line 39: a copy of the rainfall
table whose `Year` is decremented purely for the lookahead join. -/
def shift_year (r : CleanRainRow) : CleanRainRow := { r with year := r.year - 1 }

/-- The left join of line 43: look up, in the year-shifted copy of the
rainfall table, the row for the given district and (shifted) year. -/
def next_year_lookup (ct : List CleanRainRow) (d : String) (y : Int) : Option CleanRainRow :=
  (ct.map shift_year).find? (fun n => n.district == d && n.year == y)

/-- One row of `rainfall_expanded` (data_ingestion.py lines 36-61):
the lookahead columns `Jan_Next`/`Feb_Next`/`Mar_Next` from the line 43
join, `Rain_Kharif` (lines 47-49), `Rain_Rabi` with its `.fillna(0)` on the
three lookahead columns (lines 52-54), `Rain_Summer` (lines 57-58) and
`Rain_WholeYear` (line 61, the `Annual_Total` column). -/
def expand_row (ct : List CleanRainRow) (r : CleanRainRow) : ExpandedRow :=
  let nxt := next_year_lookup ct r.district r.year
  { row := r,
    jan_next := nxt.map (fun n => n.january),
    feb_next := nxt.map (fun n => n.february),
    mar_next := nxt.map (fun n => n.march),
    rain_kharif := r.june + r.july + r.august + r.september + r.october,
    rain_rabi := r.october + r.november + r.december +
      (nxt.map (fun n => n.january)).getD 0 +
      (nxt.map (fun n => n.february)).getD 0 +
      (nxt.map (fun n => n.march)).getD 0,
    rain_summer := r.march + r.april + r.may,
    rain_whole_year := r.annual_total }

/-- The full `rainfall_expanded` table: clean every row (lines 24, 29-34),
then attach lookahead columns and seasonal aggregates (lines 36-61). -/
def rainfall_expanded (tbl : List RainfallRow) : List ExpandedRow :=
  let ct := tbl.map clean_rain_row
  ct.map (expand_row ct)

/-- The spec's example rainfall row: District=PUNE, Year=2015, June=150,
July=200, August=180, September=90, October=40 (other months arbitrary). -/
def pune_2015 : RainfallRow :=
  { district := "PUNE", year := 2015,
    january := .num 10, february := .num 5, march := .num 2,
    april := .num 1, may := .num 0, june := .num 150,
    july := .num 200, august := .num 180, september := .num 90,
    october := .num 40, november := .num 20, december := .num 5,
    annual_total := some 703 }

/-- C1: for every rainfall row, the Kharif aggregate computed by the
ingestion stage equals the exact sum June+July+August+September+October of
that row's (coerced) monthly values, for that district and year; and the
spec's example row (PUNE, 2015, June=150, July=200, August=180,
September=90, October=40) yields Rain_Kharif = 660. -/
theorem c1_kharif_exact_sum :
    (∀ tbl : List RainfallRow,
      (rainfall_expanded tbl).map (fun e => (e.row.district, e.row.year, e.rain_kharif)) =
        tbl.map (fun r => (upper_strip r.district, r.year,
          to_numeric_fill0 r.june + to_numeric_fill0 r.july + to_numeric_fill0 r.august +
            to_numeric_fill0 r.september + to_numeric_fill0 r.october))) ∧
    (rainfall_expanded [pune_2015]).map (fun e => e.rain_kharif) = [660] := by
  constructor
  · intro tbl
    simp only [rainfall_expanded, List.map_map]
    rfl
  · decide

/-! ### C2: the Rabi aggregate and the lookahead join -/

/-- Written from the spec's words, for comparison with the code's
shift-and-merge computation: the Rabi aggregate for (district, year) is
October+November+December of that year plus January+February+March of the
row for the same district and year+1, each next-year month contributing
zero when that row is absent from the rainfall table. -/
def spec_rabi (ct : List CleanRainRow) (r : CleanRainRow) : ℚ :=
  r.october + r.november + r.december +
    (match ct.find? (fun n => n.district == r.district && n.year == r.year + 1) with
     | some n => n.january + n.february + n.march
     | none => 0)

/-- The predicate used by the shifted-copy join agrees, on an unshifted
row, with a direct year+1 comparison. -/
theorem shift_pred_eq (n : CleanRainRow) (d : String) (y : Int) :
    ((shift_year n).district == d && (shift_year n).year == y) =
      (n.district == d && n.year == y + 1) := by
  cases hb : (n.district == d) with
  | true =>
    simp only [shift_year, hb, Bool.true_and]
    rw [Bool.eq_iff_iff]
    simp only [beq_iff_eq]
    omega
  | false => simp [shift_year, hb]

/-- The code's lookup (shift every year down by one, then join on the
original year, data_ingestion.py lines 38-43) finds exactly the shifted
copy of the row for year+1. -/
theorem next_year_lookup_eq (ct : List CleanRainRow) (d : String) (y : Int) :
    next_year_lookup ct d y =
      (ct.find? (fun n => n.district == d && n.year == y + 1)).map shift_year := by
  unfold next_year_lookup
  induction ct with
  | nil => rfl
  | cons n ct ih =>
    simp only [List.map_cons, List.find?_cons, shift_pred_eq]
    cases (n.district == d && n.year == y + 1) with
    | true => simp
    | false => simpa using ih

/-- C2: for every rainfall row for (district, year), the Rabi aggregate
computed by the ingestion stage equals October+November+December of that
year plus January+February+March of year+1 for the same district, where a
missing next-year row contributes zero for each of the three lookahead
months; stated per row against the spec-side definition, and for the whole
`rainfall_expanded` table. -/
theorem c2_rabi_lookahead :
    (∀ (ct : List CleanRainRow) (r : CleanRainRow),
      (expand_row ct r).rain_rabi = spec_rabi ct r) ∧
    (∀ tbl : List RainfallRow,
      (rainfall_expanded tbl).map (fun e => (e.row.district, e.row.year, e.rain_rabi)) =
        (tbl.map clean_rain_row).map
          (fun r => (r.district, r.year, spec_rabi (tbl.map clean_rain_row) r))) := by
  have hrow : ∀ (ct : List CleanRainRow) (r : CleanRainRow),
      (expand_row ct r).rain_rabi = spec_rabi ct r := by
    intro ct r
    show (expand_row ct r).rain_rabi = spec_rabi ct r
    unfold expand_row spec_rabi
    rw [next_year_lookup_eq]
    cases ct.find? (fun n => n.district == r.district && n.year == r.year + 1) with
    | none => simp
    | some n => simp [shift_year]; ring
  refine ⟨hrow, ?_⟩
  intro tbl
  simp only [rainfall_expanded, List.map_map]
  refine List.map_congr_left ?_
  intro r _
  simp only [Function.comp]
  rw [hrow]
  rfl

/-! ### The merge into the Master Table (data_ingestion.py lines 63-121) -/

/-- One row of `CropData.csv`: natural key plus area and production, both
nullable in the raw file. -/
structure CropRow where
  district_name : String
  crop_year : Int
  season : String
  crop : String
  area : Option ℚ
  production : Option ℚ
deriving DecidableEq

/-- One row of `District_ph.csv` (`City` is the district, line 25). -/
structure DistrictPhRow where
  city : String
  pH_min : Option ℚ
  pH_max : Option ℚ
deriving DecidableEq

/-- One row of `Crop_ph.csv`: advisory pH bounds per crop. -/
structure CropPhRow where
  crop : String
  pH_min_Range : Option ℚ
  pH_max_Range : Option ℚ
deriving DecidableEq

/-- A row of the Master Table (the `cols_to_keep` of data_ingestion.py
lines 103-104); cells that a failed join or a missing raw value leaves
empty are `none`. -/
structure MasterRow where
  district_name : String
  crop_year : Int
  season : String
  crop : String
  area : Option ℚ
  production : Option ℚ
  actual_rainfall : Option ℚ
  pH_min : Option ℚ
  pH_max : Option ℚ
  pH_min_Range : Option ℚ
  pH_max_Range : Option ℚ
deriving DecidableEq

/-- `get_rain` with the `season_map` of data_ingestion.py lines 68-89:
select the seasonal column named by the (stripped) season, `Autumn`
folding into Kharif; a season outside the map, or a missed rainfall join
(all seasonal columns NaN on that row), yields NaN. -/
def get_rain (season : String) (e : Option ExpandedRow) : Option ℚ :=
  match e with
  | none => none
  | some ex =>
    if season == "Kharif" || season == "Autumn" then some ex.rain_kharif
    else if season == "Rabi" then some ex.rain_rabi
    else if season == "Summer" then some ex.rain_summer
    else if season == "Whole Year" then ex.rain_whole_year
    else none

/-- One merged row before pH fill and the non-null filter: the left joins
of data_ingestion.py lines 80-83 (rainfall, on normalized district and
year), line 95 (district soil pH, on normalized district = normalized
`City`) and line 100 (crop pH requirements, on stripped crop), restricted
to `cols_to_keep` (lines 103-106). -/
def merged_row (exp : List ExpandedRow) (dph : List DistrictPhRow)
    (cph : List CropPhRow) (c : CropRow) : MasterRow :=
  let dn := upper_strip c.district_name
  let sn := strip_str c.season
  let cn := strip_str c.crop
  let e := exp.find? (fun x => x.row.district == dn && x.row.year == c.crop_year)
  let d := dph.find? (fun x => upper_strip x.city == dn)
  let p := cph.find? (fun x => strip_str x.crop == cn)
  { district_name := dn, crop_year := c.crop_year, season := sn, crop := cn,
    area := c.area, production := c.production,
    actual_rainfall := get_rain sn e,
    pH_min := d.bind (fun x => x.pH_min),
    pH_max := d.bind (fun x => x.pH_max),
    pH_min_Range := p.bind (fun x => x.pH_min_Range),
    pH_max_Range := p.bind (fun x => x.pH_max_Range) }

/-- The merged table restricted to `cols_to_keep`, before the pH fill of
lines 109-110 and the dropna of line 115. -/
def merged_table (cd : List CropRow) (rt : List RainfallRow)
    (dp : List DistrictPhRow) (cp : List CropPhRow) : List MasterRow :=
  cd.map (merged_row (rainfall_expanded rt) dp cp)

/-- Pandas column mean: the mean of the present values, NaN when the
column holds no present value (so that `fillna(mean)` then fills nothing). -/
def opt_mean (xs : List (Option ℚ)) : Option ℚ :=
  let present := xs.filterMap id
  if present.length = 0 then none else some (present.sum / (present.length : ℚ))

/-- `Series.fillna(m)` on one cell: keep a present value, replace a
missing one by `m` (still missing when `m` is itself NaN). -/
def fillna (m : Option ℚ) : Option ℚ → Option ℚ
  | some v => some v
  | none => m

/-- The pH fill of data_ingestion.py lines 109-110: missing `pH_min` and
`pH_max` are replaced by their column-wide means; no other column is
touched. -/
def fill_ph (rows : List MasterRow) : List MasterRow :=
  let m1 := opt_mean (rows.map (fun r => r.pH_min))
  let m2 := opt_mean (rows.map (fun r => r.pH_max))
  rows.map (fun r => { r with pH_min := fillna m1 r.pH_min, pH_max := fillna m2 r.pH_max })

/-- `load_data` (data_ingestion.py lines 5-121): merge the four raw
tables, fill missing `pH_min`/`pH_max` with column means (lines 109-110),
then drop every row whose `Actual_Rainfall` or `Production` is missing
(line 115).  The returned list is the Master Table that is written out. -/
def load_data (cd : List CropRow) (rt : List RainfallRow)
    (dp : List DistrictPhRow) (cp : List CropPhRow) : List MasterRow :=
  (fill_ph (merged_table cd rt dp cp)).filter
    (fun r => r.actual_rainfall.isSome && r.production.isSome)

/-- C3: for every possible set of four raw input tables, the Master Table
emitted by the merge stage contains no missing values in the
`Actual_Rainfall` column and none in the `Production` column. -/
theorem c3_no_missing_rainfall_production :
    ∀ (cd : List CropRow) (rt : List RainfallRow) (dp : List DistrictPhRow)
      (cp : List CropPhRow), ∀ r ∈ load_data cd rt dp cp,
      r.actual_rainfall.isSome = true ∧ r.production.isSome = true := by
  intro cd rt dp cp r hr
  have h := List.of_mem_filter hr
  exact ⟨(Bool.and_eq_true _ _ ▸ h).1, (Bool.and_eq_true _ _ ▸ h).2⟩

/-- A one-row crop table joined against the example rainfall row, for
witnessing the claims on concrete data. -/
def demo_crop : CropRow :=
  { district_name := "PUNE", crop_year := 2015, season := "Kharif     ",
    crop := "Maize", area := some 1, production := some 10 }

/-- A district-soil table with one PUNE row. -/
def demo_dph : List DistrictPhRow := [{ city := "PUNE", pH_min := some 6, pH_max := some 7 }]

/-- A crop-requirement table with one Maize row. -/
def demo_cph : List CropPhRow := [{ crop := "Maize", pH_min_Range := some 5, pH_max_Range := some 8 }]

/-- Witness for C3 at a concrete input: the single surviving master row of
the demo tables has both columns present. -/
theorem c3_no_missing_rainfall_production_witness :
    ({ district_name := "PUNE", crop_year := 2015, season := "Kharif", crop := "Maize",
       area := some 1, production := some 10, actual_rainfall := some 660,
       pH_min := some 6, pH_max := some 7, pH_min_Range := some 5,
       pH_max_Range := some 8 } : MasterRow).actual_rainfall.isSome = true ∧
    ({ district_name := "PUNE", crop_year := 2015, season := "Kharif", crop := "Maize",
       area := some 1, production := some 10, actual_rainfall := some 660,
       pH_min := some 6, pH_max := some 7, pH_min_Range := some 5,
       pH_max_Range := some 8 } : MasterRow).production.isSome = true :=
  c3_no_missing_rainfall_production [demo_crop] [pune_2015] demo_dph demo_cph _ (by decide)

/-! ### C4: which pH columns are mean-imputed -/

/-- A second crop row whose crop has no row in the demo crop-requirement
table, so its `pH_min_Range`/`pH_max_Range` stay missing after the joins. -/
def demo_crop_rice : CropRow :=
  { district_name := "PUNE", crop_year := 2015, season := "Kharif     ",
    crop := "Rice", area := some 1, production := some 10 }

/-- C4 counterexample: with two crop rows of which only the first matches
the crop-requirement table, the merged `pH_min_Range` column is
`[some 5, none]` and its column-wide mean exists (5), yet the Master Table
emitted by the merge stage still carries the missing value: the stage
never imputes `pH_min_Range` (or `pH_max_Range`), contradicting the claim
that every missing value of each of the four pH columns is replaced by its
column mean. -/
theorem c4_range_not_imputed_counterexample :
    (load_data [demo_crop, demo_crop_rice] [pune_2015] demo_dph demo_cph).map
        (fun r => r.pH_min_Range) = [some 5, none] ∧
    opt_mean ((merged_table [demo_crop, demo_crop_rice] [pune_2015] demo_dph demo_cph).map
        (fun r => r.pH_min_Range)) = some 5 := by
  constructor
  · decide
  · decide

/-- C4 as amended: in the Master Table, the `pH_min` (resp. `pH_max`)
column is obtained from the merged column by replacing each missing value
with that column's mean, while the `pH_min_Range` and `pH_max_Range`
columns pass through the fill step unchanged (rows only disappear through
the later non-null filter). -/
theorem c4_amended_ph_fill :
    ∀ (cd : List CropRow) (rt : List RainfallRow) (dp : List DistrictPhRow)
      (cp : List CropPhRow),
      List.Sublist ((load_data cd rt dp cp).map (fun r => r.pH_min))
        ((merged_table cd rt dp cp).map
          (fun r => fillna (opt_mean ((merged_table cd rt dp cp).map
            (fun x => x.pH_min))) r.pH_min)) ∧
      List.Sublist ((load_data cd rt dp cp).map (fun r => r.pH_max))
        ((merged_table cd rt dp cp).map
          (fun r => fillna (opt_mean ((merged_table cd rt dp cp).map
            (fun x => x.pH_max))) r.pH_max)) ∧
      List.Sublist ((load_data cd rt dp cp).map (fun r => r.pH_min_Range))
        ((merged_table cd rt dp cp).map (fun r => r.pH_min_Range)) ∧
      List.Sublist ((load_data cd rt dp cp).map (fun r => r.pH_max_Range))
        ((merged_table cd rt dp cp).map (fun r => r.pH_max_Range)) := by
  intro cd rt dp cp
  have hfil : ∀ f : MasterRow → Option ℚ,
      List.Sublist ((load_data cd rt dp cp).map f)
        ((fill_ph (merged_table cd rt dp cp)).map f) := by
    intro f
    exact List.Sublist.map f (List.filter_sublist _)
  refine ⟨?_, ?_, ?_, ?_⟩
  · have h := hfil (fun r => r.pH_min)
    simpa only [fill_ph, List.map_map] using h
  · have h := hfil (fun r => r.pH_max)
    simpa only [fill_ph, List.map_map] using h
  · have h := hfil (fun r => r.pH_min_Range)
    simpa only [fill_ph, List.map_map] using h
  · have h := hfil (fun r => r.pH_max_Range)
    simpa only [fill_ph, List.map_map] using h

/-! ### C10: zero-coercion of non-numeric months in every aggregate -/

/-- C10: before any seasonal aggregation the ingestion stage coerces
every non-numeric or missing monthly value (the literal `N.A.` included)
to zero; a missing current-year month is therefore treated as zero
rainfall in every seasonal aggregate rather than dropping or flagging the
row: replacing a month by `N.A.` is the same as replacing it by 0, the
expanded table keeps one row per input row, and the Summer aggregate (like
Kharif and the current-year part of Rabi) is the sum of coerced values. -/
theorem c10_nonnumeric_months_zeroed :
    (∀ s, to_numeric_fill0 (.text s) = 0) ∧
    to_numeric_fill0 .na = 0 ∧
    (∀ r : RainfallRow,
      clean_rain_row { r with june := .na } = clean_rain_row { r with june := .num 0 } ∧
      clean_rain_row { r with october := .na } = clean_rain_row { r with october := .num 0 }) ∧
    (∀ tbl : List RainfallRow, (rainfall_expanded tbl).length = tbl.length) ∧
    (∀ (ct : List CleanRainRow) (r : CleanRainRow),
      (expand_row ct r).rain_summer = r.march + r.april + r.may) := by
  refine ⟨fun s => rfl, rfl, fun r => ⟨rfl, rfl⟩, ?_, fun ct r => rfl⟩
  intro tbl
  simp [rainfall_expanded]

/-! ### Model selection (training.py lines 62-102) -/

/-- The fixed candidate enumeration order of training.py lines 62-67. -/
def model_names : List String :=
  ["Linear Regression", "Decision Tree", "Random Forest", "XGBoost"]

/-- One iteration of the selection loop (training.py lines 97-99):
`best_score` starts at negative infinity (line 70), embedded as `none`, so
the first candidate always becomes best; afterwards a candidate replaces
the best only when its score is strictly greater (`r2 > best_score`). -/
def sel_step (best : Option (String × ℚ)) (p : String × ℚ) : Option (String × ℚ) :=
  match best with
  | none => some p
  | some (bn, bs) => if bs < p.2 then some p else some (bn, bs)

/-- The whole selection loop over the candidate (name, R2) results, in
encounter order (training.py lines 69-99). -/
def select_best (results : List (String × ℚ)) : Option (String × ℚ) :=
  results.foldl sel_step none

/-- Invariant of the selection fold: starting from a current best
(bn, bs), the fold returns a result whose score dominates bs and every
processed score, and the result is either the unchanged initial best or a
candidate strictly better than bs that is preceded only by strictly
smaller scores. -/
theorem sel_fold_spec (rs : List (String × ℚ)) :
    ∀ bn bs, ∃ n s, rs.foldl sel_step (some (bn, bs)) = some (n, s) ∧ bs ≤ s ∧
      (∀ p ∈ rs, p.2 ≤ s) ∧
      ((n = bn ∧ s = bs) ∨
        ∃ pre post, rs = pre ++ (n, s) :: post ∧ bs < s ∧ ∀ p ∈ pre, p.2 < s) := by
  induction rs with
  | nil =>
    intro bn bs
    exact ⟨bn, bs, rfl, le_refl bs, by simp, Or.inl ⟨rfl, rfl⟩⟩
  | cons p rs ih =>
    intro bn bs
    obtain ⟨pn, ps⟩ := p
    by_cases h : bs < ps
    · obtain ⟨n, s, hf, hbs, hall, hpos⟩ := ih pn ps
      refine ⟨n, s, ?_, le_of_lt (lt_of_lt_of_le h hbs), ?_, ?_⟩
      · rw [List.foldl_cons]
        simpa [sel_step, h] using hf
      · intro q hq
        rcases List.mem_cons.mp hq with hq | hq
        · rw [hq]; exact hbs
        · exact hall q hq
      · rcases hpos with ⟨hn, hs⟩ | ⟨pre, post, hrs, hlt, hpre⟩
        · refine Or.inr ⟨[], rs, ?_, ?_, by simp⟩
          · simp [hn, hs]
          · rw [hs]; exact h
        · refine Or.inr ⟨(pn, ps) :: pre, post, by rw [hrs]; rfl,
            lt_trans h hlt, ?_⟩
          intro q hq
          rcases List.mem_cons.mp hq with hq | hq
          · rw [hq]; exact hlt
          · exact hpre q hq
    · obtain ⟨n, s, hf, hbs, hall, hpos⟩ := ih bn bs
      have hp2 : ps ≤ bs := le_of_not_lt h
      refine ⟨n, s, ?_, hbs, ?_, ?_⟩
      · rw [List.foldl_cons]
        simpa [sel_step, h] using hf
      · intro q hq
        rcases List.mem_cons.mp hq with hq | hq
        · rw [hq]; exact le_trans hp2 hbs
        · exact hall q hq
      · rcases hpos with ⟨hn, hs⟩ | ⟨pre, post, hrs, hlt, hpre⟩
        · exact Or.inl ⟨hn, hs⟩
        · refine Or.inr ⟨(pn, ps) :: pre, post, by rw [hrs]; rfl, hlt, ?_⟩
          intro q hq
          rcases List.mem_cons.mp hq with hq | hq
          · rw [hq]; exact lt_of_le_of_lt hp2 hlt
          · exact hpre q hq

/-- The selection loop on a nonempty result sequence returns a candidate
with maximal score that is preceded only by strictly smaller scores (so a
later candidate with an equal score never displaces it). -/
theorem select_best_spec (rs : List (String × ℚ)) (hne : rs ≠ []) :
    ∃ n s, select_best rs = some (n, s) ∧ (∀ p ∈ rs, p.2 ≤ s) ∧
      ∃ pre post, rs = pre ++ (n, s) :: post ∧ ∀ p ∈ pre, p.2 < s := by
  cases rs with
  | nil => exact absurd rfl hne
  | cons q rest =>
    obtain ⟨qn, qs⟩ := q
    obtain ⟨n, s, hf, hbs, hall, hpos⟩ := sel_fold_spec rest qn qs
    refine ⟨n, s, ?_, ?_, ?_⟩
    · show ((qn, qs) :: rest).foldl sel_step none = some (n, s)
      rw [List.foldl_cons]
      exact hf
    · intro p hp
      rcases List.mem_cons.mp hp with hp | hp
      · rw [hp]; exact hbs
      · exact hall p hp
    · rcases hpos with ⟨hn, hs⟩ | ⟨pre, post, hrs, hlt, hpre⟩
      · exact ⟨[], rest, by simp [hn, hs], by simp⟩
      · refine ⟨(qn, qs) :: pre, post, by rw [hrs]; rfl, ?_⟩
        intro p hp
        rcases List.mem_cons.mp hp with hp | hp
        · rw [hp]; exact hlt
        · exact hpre p hp

/-- C5: for every sequence of candidate (model, R2) results produced in
the fixed enumeration order (Linear Regression, Decision Tree, Random
Forest, XGBoost), the persisted candidate is one with the highest held-out
R2, and every candidate enumerated before it scores strictly lower — so
when several candidates attain the maximum, the first one encountered is
persisted. -/
theorem c5_best_r2_first_tie_wins (s1 s2 s3 s4 : ℚ) :
    ∃ n s, select_best (model_names.zip [s1, s2, s3, s4]) = some (n, s) ∧
      (∀ p ∈ model_names.zip [s1, s2, s3, s4], p.2 ≤ s) ∧
      ∃ pre post, model_names.zip [s1, s2, s3, s4] = pre ++ (n, s) :: post ∧
        ∀ p ∈ pre, p.2 < s :=
  select_best_spec _ (by simp [model_names])

/-! ### C6: determinism of a training run (training.py lines 16-111) -/

/-- The statistical library's fitted behaviour, embedded as functions:
`split seed df` is the 80/20 `train_test_split` for a given
`random_state`, and `fit_score name train test` is the held-out R2 of the
named candidate fitted on `train` (each candidate's own `random_state` is
fixed in the source, lines 64-66, so the fit is a function of its data).
Making these parameters of the run lets determinism be stated for every
possible library behaviour. -/
structure MLLib where
  split : ℕ → List MasterRow → List MasterRow × List MasterRow
  fit_score : String → List MasterRow → List MasterRow → ℚ

/-- What a training run leaves behind: the persisted winner (name and R2)
and the printed per-candidate log with wall-clock durations. -/
structure TrainOutcome where
  saved : Option (String × ℚ)
  log : List (String × ℕ)

/-- `train_models` (training.py lines 16-111): split with the fixed seed
42 (line 60), fit and score the four candidates in enumeration order
(lines 76-99), persist the best by strict R2 comparison.  The ambient
wall clock (`time.time()`, lines 77 and 92) feeds only the printed
durations, never the selection. -/
def train_models (lib : MLLib) (clock : ℕ) (df : List MasterRow) : TrainOutcome :=
  let parts := lib.split 42 df
  let results := model_names.map (fun n => (n, lib.fit_score n parts.1 parts.2))
  { saved := select_best results,
    log := model_names.map (fun n => (n, clock + n.length)) }

/-- C6: for every Master Table, two runs of the training stage on that
table persist the same winning model: the split and every candidate fit
depend only on the table and the fixed seed (42), so the only run-to-run
variation — the ambient wall clock — cannot change the persisted choice,
whatever the (deterministic) library functions are. -/
theorem c6_training_deterministic :
    ∀ (lib : MLLib) (df : List MasterRow) (clock1 clock2 : ℕ),
      (train_models lib clock1 df).saved = (train_models lib clock2 df).saved := by
  intro lib df clock1 clock2
  rfl

/-! ### C7: unknown-category tolerance at inference (training.py lines 50-57, app.py lines 64-73) -/

/-- The `handle_unknown` policy of the one-hot encoder
(training.py line 56 sets `'ignore'`). -/
inductive HandleUnknown where
  | error
  | ignore
deriving DecidableEq

/-- Fitted one-hot encoding of one categorical value against the learned
category list: an indicator vector for a known category; for an unseen
category, the `'ignore'` policy emits the all-zero vector while `'error'`
raises (embedded as `none`). -/
def one_hot_encode (h : HandleUnknown) (cats : List String) (x : String) : Option (List ℚ) :=
  match h with
  | .ignore => some (cats.map (fun c => if c == x then 1 else 0))
  | .error =>
    if x ∈ cats then some (cats.map (fun c => if c == x then 1 else 0)) else none

/-- The fitted preprocessor of training.py lines 50-57: learned category
lists for the three categorical columns, and the (total) median-impute +
standard-scale transform of the six numeric columns. -/
structure FittedPreprocessor where
  district_cats : List String
  season_cats : List String
  crop_cats : List String
  num_transform : List ℚ → List ℚ

/-- A single-row input frame as both front ends build it (all numeric
fields parsed). -/
structure InputRow where
  district_name : String
  season : String
  crop : String
  area : ℚ
  actual_rainfall : ℚ
  pH_min : ℚ
  pH_max : ℚ
  pH_min_Range : ℚ
  pH_max_Range : ℚ
deriving DecidableEq

/-- The fitted `ColumnTransformer` applied to one input row: transformed
numeric block followed by the three one-hot blocks, each encoded with the
`'ignore'` policy fixed at training.py line 56; `none` would model a
raised exception. -/
def transform_input (pre : FittedPreprocessor) (r : InputRow) : Option (List ℚ) := do
  let d ← one_hot_encode .ignore pre.district_cats r.district_name
  let s ← one_hot_encode .ignore pre.season_cats r.season
  let c ← one_hot_encode .ignore pre.crop_cats r.crop
  pure (pre.num_transform
    [r.area, r.actual_rainfall, r.pH_min, r.pH_max, r.pH_min_Range, r.pH_max_Range]
    ++ d ++ s ++ c)

/-- `pipeline.predict` on one input row (app.py line 68): preprocess, then
apply the fitted regressor to the feature vector. -/
def pipeline_predict (pre : FittedPreprocessor) (reg : List ℚ → ℚ) (r : InputRow) : Option ℚ :=
  (transform_input pre r).map reg

/-- C7: for every input to the text front end whose numeric fields parse —
including one whose crop name was never seen during training — the
prediction step raises no exception: `pipeline.predict` always returns a
numeric value, and an unseen crop is encoded as the all-zero vector. -/
theorem c7_unseen_category_no_exception :
    ∀ (pre : FittedPreprocessor) (reg : List ℚ → ℚ) (r : InputRow),
      (pipeline_predict pre reg r).isSome = true ∧
      (r.crop ∉ pre.crop_cats →
        one_hot_encode .ignore pre.crop_cats r.crop =
          some (List.replicate pre.crop_cats.length 0)) := by
  intro pre reg r
  constructor
  · simp [pipeline_predict, transform_input, one_hot_encode]
  · intro hnot
    simp only [one_hot_encode, Option.some_inj]
    refine List.eq_replicate_iff.mpr ⟨by simp, ?_⟩
    intro b hb
    obtain ⟨c, hc, hcb⟩ := List.mem_map.mp hb
    have hne : (c == r.crop) = false := by
      refine beq_eq_false_iff_ne.mpr ?_
      intro hceq
      exact hnot (hceq ▸ hc)
    rw [← hcb, hne]
    rfl

/-- The demo fitted preprocessor: categories as learned from a tiny
master table that never saw the crop `ZZZCROP`. -/
def demo_pre : FittedPreprocessor :=
  { district_cats := ["PUNE"], season_cats := ["Kharif"],
    crop_cats := ["Maize", "Wheat"], num_transform := id }

/-- A demo fitted regressor. -/
def demo_reg : List ℚ → ℚ := fun l => l.sum

/-- The spec's example input: an unrecognized crop name `ZZZCROP` with
parsed numeric fields. -/
def demo_zzz_row : InputRow :=
  { district_name := "PUNE", season := "Kharif", crop := "ZZZCROP",
    area := 10, actual_rainfall := 800, pH_min := 13 / 2, pH_max := 13 / 2,
    pH_min_Range := 11 / 2, pH_max_Range := 17 / 2 }

/-- Witness for C7 at the concrete `ZZZCROP` input. -/
theorem c7_unseen_category_no_exception_witness :
    (pipeline_predict demo_pre demo_reg demo_zzz_row).isSome = true ∧
      one_hot_encode .ignore demo_pre.crop_cats demo_zzz_row.crop =
        some (List.replicate demo_pre.crop_cats.length 0) :=
  ⟨(c7_unseen_category_no_exception demo_pre demo_reg demo_zzz_row).1,
   (c7_unseen_category_no_exception demo_pre demo_reg demo_zzz_row).2 (by decide)⟩

/-! ### C8: the single-row input frames of both front ends -/

/-- A cell of a one-row input frame: a categorical string or a number. -/
inductive CellValue where
  | str (s : String)
  | num (q : ℚ)
deriving DecidableEq

/-- The Master Table's column list, in order (`cols_to_keep`,
data_ingestion.py lines 103-104). -/
def cols_to_keep : List String :=
  ["District_Name", "Crop_Year", "Season", "Crop", "Area", "Production",
   "Actual_Rainfall", "pH_min", "pH_max", "pH_min_Range", "pH_max_Range"]

/-- The single-row frame built by the text front end (app.py lines 47-59):
the user's pH is used for both `pH_min` and `pH_max`, and the requirement
range defaults to 5.5 and 8.5. -/
def app_input_frame (district season crop : String) (area rainfall ph : ℚ) :
    List (String × CellValue) :=
  [("District_Name", .str district), ("Season", .str season), ("Crop", .str crop),
   ("Area", .num area), ("Actual_Rainfall", .num rainfall),
   ("pH_min", .num ph), ("pH_max", .num ph),
   ("pH_min_Range", .num (11 / 2)), ("pH_max_Range", .num (17 / 2))]

/-- The single-row frame built by the dashboard (streamlit_app.py lines
69-73): same keys, same order, same pH handling as the text front end. -/
def streamlit_input_frame (district season crop : String) (area rainfall ph : ℚ) :
    List (String × CellValue) :=
  [("District_Name", .str district), ("Season", .str season), ("Crop", .str crop),
   ("Area", .num area), ("Actual_Rainfall", .num rainfall),
   ("pH_min", .num ph), ("pH_max", .num ph),
   ("pH_min_Range", .num (11 / 2)), ("pH_max_Range", .num (17 / 2))]

/-- The prediction-and-presentation step of the text front end (app.py
lines 65-70): build the frame, call the persisted pipeline once, print the
scalar as absolute production and as production divided by the frame's
`Area`. -/
def app_predict_present (model : List (String × CellValue) → ℚ)
    (district season crop : String) (area rainfall ph : ℚ) : ℚ × ℚ :=
  let df := app_input_frame district season crop area rainfall ph
  let prediction := model df
  (prediction, prediction / area)

/-- C8 counterexample: the columns of the front ends' input frame are not
the Master Table's columns minus `Production` — `Crop_Year` belongs to
that difference but to neither front end's frame. -/
theorem c8_columns_counterexample :
    (app_input_frame "PUNE" "Kharif" "Maize" 10 800 (13 / 2)).map Prod.fst ≠
        cols_to_keep.erase "Production" ∧
    "Crop_Year" ∈ cols_to_keep.erase "Production" ∧
    "Crop_Year" ∉ (app_input_frame "PUNE" "Kharif" "Maize" 10 800 (13 / 2)).map Prod.fst ∧
    "Crop_Year" ∉ (streamlit_input_frame "PUNE" "Kharif" "Maize" 10 800 (13 / 2)).map Prod.fst := by
  refine ⟨by decide, by decide, by decide, by decide⟩

/-- C8 as amended: for every accepted set of user inputs, each front end
builds a single-row frame whose columns are exactly the Master Table's
columns minus the target `Production` and minus `Crop_Year` (in the
master order: District_Name, Season, Crop, Area, Actual_Rainfall, pH_min,
pH_max, pH_min_Range, pH_max_Range), both front ends agree on the frame,
and the text front end presents the pipeline's scalar both as absolute
production and as production divided by area. -/
theorem c8_amended_frame_columns :
    ∀ (model : List (String × CellValue) → ℚ) (district season crop : String)
      (area rainfall ph : ℚ),
      (app_input_frame district season crop area rainfall ph).map Prod.fst =
        (cols_to_keep.erase "Production").erase "Crop_Year" ∧
      streamlit_input_frame district season crop area rainfall ph =
        app_input_frame district season crop area rainfall ph ∧
      app_predict_present model district season crop area rainfall ph =
        (model (app_input_frame district season crop area rainfall ph),
         model (app_input_frame district season crop area rainfall ph) / area) := by
  intro model district season crop area rainfall ph
  exact ⟨rfl, rfl, rfl⟩

/-! ### C9: the dashboard's advisory call leaves the prediction state alone -/

/-- The prediction context saved by the Predict button
(streamlit_app.py lines 80-83). -/
structure AIContext where
  district : String
  crop : String
  season : String
  rainfall : ℚ
  ph : ℚ
  yield_val : ℚ
deriving DecidableEq

/-- The dashboard's session state: `last_pred`, `last_area` and `context`
(streamlit_app.py lines 77-83). -/
structure SessionState where
  last_pred : Option ℚ
  last_area : Option ℚ
  context : Option AIContext
deriving DecidableEq

/-- The outcome of the external advisory request (streamlit_app.py lines
134-141): the model's text, or a raised error (network, authentication or
model failure). -/
inductive AdvisoryOutcome where
  | success (text : String)
  | failure (err : String)
deriving DecidableEq

/-- What the AI Agronomist tab renders for one click. -/
inductive TabDisplay where
  | advice (s : String)
  | error_msg (s : String)
  | context_warning
deriving DecidableEq

/-- The Predict button (streamlit_app.py lines 75-83): store the
prediction, the area and the advisory context in the session state. -/
def predict_button (district crop season : String) (rainfall ph area pred : ℚ) :
    SessionState :=
  { last_pred := some pred, last_area := some area,
    context := some { district := district, crop := crop, season := season,
                      rainfall := rainfall, ph := ph, yield_val := pred / area } }

/-- One click of the AI Agronomist tab (streamlit_app.py lines 100-148):
without a saved context the tab only warns (line 148); with an empty API
key it shows the configuration error (line 112); otherwise the advisory
call runs and a raised failure is caught and shown inline as `AI Error:`
(lines 145-146).  No branch writes to the session state. -/
def ask_ai_tab (api_key : String) (s : SessionState) (outcome : AdvisoryOutcome) :
    SessionState × TabDisplay :=
  match s.context with
  | none => (s, .context_warning)
  | some _ =>
    if api_key == "" then (s, .error_msg "Please configure Groq API Key in code.")
    else
      match outcome with
      | .success t => (s, .advice t)
      | .failure e => (s, .error_msg ("AI Error: " ++ e))

/-- C9: the advisory-call path never changes the session state — in
particular `last_pred`, `last_area` and `context` survive any outcome —
and when the external call fails (with a context present and a configured
key), the failure is caught and rendered as an inline `AI Error:` message
while the state is returned unchanged. -/
theorem c9_advisory_failure_frame :
    ∀ (api_key : String) (s : SessionState) (outcome : AdvisoryOutcome),
      (ask_ai_tab api_key s outcome).1 = s ∧
      (∀ err, s.context ≠ none → api_key ≠ "" →
        ask_ai_tab api_key s (.failure err) =
          (s, .error_msg ("AI Error: " ++ err))) := by
  intro api_key s outcome
  constructor
  · unfold ask_ai_tab
    cases s.context with
    | none => rfl
    | some c =>
      cases outcome with
      | success t => by_cases hk : api_key = "" <;> simp [hk]
      | failure e => by_cases hk : api_key = "" <;> simp [hk]
  · intro err hctx hkey
    unfold ask_ai_tab
    cases hc : s.context with
    | none => exact absurd hc hctx
    | some c =>
      have hk : (api_key == "") = false := beq_eq_false_iff_ne.mpr hkey
      simp [hk]

/-- The session state after a concrete prediction. -/
def demo_state : SessionState :=
  predict_button "PUNE" "Maize" "Kharif" 800 (13 / 2) 10 100

/-- Witness for C9: a concrete failing advisory call against a populated
session state leaves it untouched and shows the inline error. -/
theorem c9_advisory_failure_frame_witness :
    (ask_ai_tab "key" demo_state (.failure "boom")).1 = demo_state ∧
      ask_ai_tab "key" demo_state (.failure "boom") =
        (demo_state, .error_msg ("AI Error: " ++ "boom")) :=
  ⟨(c9_advisory_failure_frame "key" demo_state (.failure "boom")).1,
   (c9_advisory_failure_frame "key" demo_state (.failure "boom")).2 "boom"
     (by decide) (by decide)⟩
